import Mathlib

/-!
Verification of the asset-update reconciliation engine
(`app/updater.py`, `app/helpres.py`, `app/jira_board.py`,
`app/jira_assets.py`, `app/config.py`).

Shallow embedding conventions:
* Wall-clock instants and parsed dates are integers (seconds); the Python
  code compares `timedelta.total_seconds()` against integer thresholds, so
  all ordering comparisons are preserved.
* `datetime.strptime(s, "%Y-%m-%d")` is modelled by an abstract partial
  parser `Env.dateParse : String -> Option Int`; the code only branches on
  parse success and on the ordering of the parsed value, never on the
  calendar structure of the date.
* Remote calls are recorded in an `Act` trace.  `Act.invokeDecider`
  and `Act.invokeCreator` are invocation markers recording entry into
  `process_linked_update_issue` and `create_update_task` respectively
  (Python function calls, not remote requests); `Act.transitionByName`
  records the call to `JiraBoard.transition_task_by_name`.
* An uncaught Python exception (the `ValueError` raised by
  `transition_task_by_name` when the named transition is absent, `KeyError`
  on a missing asset id, `IndexError` on indexing an empty attribute list)
  is modelled by the `exn` field of a `Step`; an exception aborts every
  enclosing loop, exactly as in Python.
* HTTP-level failures are absorbed by `_request` in both API wrappers and
  returned as ordinary values (error dictionaries), so they never raise;
  the embedding therefore does not need a separate failure channel for
  them.  A falsy `get_task` response is modelled as `none`.
-/

/-! ## Configuration constants (`app/config.py`) -/

def ONE_DAY_SECONDS : Int := 86400

def UPDATE_WARNING_DAYS : Int := 5

def UPDATE_WARNING_SECONDS : Int := UPDATE_WARNING_DAYS * ONE_DAY_SECONDS

def TASK_SUMMARY_TEMPLATE (asset_name : String) : String :=
  "Update " ++ asset_name

/-- Description template; quotation marks of the source string are elided
(they play no role in any property). -/
def TASK_DESCRIPTION_TEMPLATE (asset_name : String) : String :=
  "Please update the asset " ++ asset_name ++
    ".\n\nRequired steps:\n1. Update the app\n2. Update the Update property in Asset\n3. Move task to -> DONE"

def COMMENT_REMINDER (update_date : String) : String :=
  "Reminder: The asset update is overdue (Update date: " ++ update_date ++
    "). Please update the asset."

def COMMENT_REQUEST_UPDATE : String :=
  "The Update date is outdated. Please update the asset accordingly."

/-! ## Data model -/

/-- A fetched ticket: `fields.status.name` (defaulted to the empty string
by the source) and `fields.labels`. -/
structure Ticket where
  status : String
  labels : List String
deriving Repr, DecidableEq

/-- One transition offered by `get_transitions`: a name and an id. -/
structure TransitionInfo where
  name : String
  id : String
deriving Repr, DecidableEq

/-- A raw attribute value entry of `jira_assets.extract_attribute_values`:
either a record with a `value` field (whose content may itself be null),
or a record with a `referencedObject` field (whose `label` may be absent),
or a record with neither field. -/
inductive AttrValue where
  | lit (v : Option String)
  | ref (label : Option String)
  | other
deriving Repr, DecidableEq

/-- One raw attribute record of an asset. -/
structure AttrRecord where
  objectTypeAttributeId : Nat
  objectAttributeValues : List AttrValue
deriving Repr, DecidableEq

/-- An asset as consumed by the updater: its id (absent key modelled as
`none`) and its raw attribute records. -/
structure Asset where
  id : Option Nat
  attributes : List AttrRecord
deriving Repr, DecidableEq

/-- Extracted attributes: name to ordered list of extracted values, where
an individual value may be null. -/
abbrev Attrs := List (String × List (Option String))

/-- Remote calls and invocation markers recorded while the reconciler
runs. -/
inductive Act where
  | getTask (key : String)
  | fetchLinked (assetId : Nat)
  | getTransitions (key : String)
  | transitionTask (key tid : String)
  | addComment (key text : String)
  | transitionByName (key tname : String)
  | createTask (summary description duedate : String) (labels : List String)
      (assignee : Option Nat) (workspaceId : String) (objectId : Nat)
  | invokeDecider (key : String)
  | invokeCreator
deriving Repr, DecidableEq

/-- The three ticket-level operations the lifecycle logic can choose:
posting a comment, requesting a named transition, creating a ticket.
`getTransitions`/`transitionTask` are the internal legs of
`transition_task_by_name` and are classified under `transitionByName`. -/
def Act.isTicketCall : Act → Bool
  | .addComment _ _ => true
  | .transitionByName _ _ => true
  | .createTask .. => true
  | _ => false

def Act.isCreate : Act → Bool
  | .createTask .. => true
  | _ => false

def isGetTask : Act → Bool
  | .getTask _ => true
  | _ => false

def isInvokeDecider : Act → Bool
  | .invokeDecider _ => true
  | _ => false

def isInvokeCreator : Act → Bool
  | .invokeCreator => true
  | _ => false

/-- The remote world and static configuration, fixed for one pass. -/
structure Env where
  getTask : String → Option Ticket
  linkedTickets : Nat → List String
  transitions : String → List TransitionInfo
  dateParse : String → Option Int
  workspaceId : Option String
  projectKey : Option String
  assigneeMapping : String → Option Nat
  attributeMap : Nat → Option String

/-- The per-pass ticket cache of `app/helpres.py`: an association list
keyed by issue key; a cached value `none` records a falsy fetch result. -/
abbrev Cache := List (String × Option Ticket)

/-- Result of a stateful step: final cache, recorded actions, and the
uncaught exception if one escaped. -/
structure Step where
  cache : Cache
  trace : List Act
  exn : Option String
deriving Repr, DecidableEq

/-! ## `app/jira_assets.py`: attribute extraction -/

/-- The inner loop over `objectAttributeValues`: a `value` field wins, else
the label of a `referencedObject` (possibly null) is appended, else the
entry contributes nothing. -/
def extract_values : List AttrValue → List (Option String)
  | [] => []
  | .lit v :: rest => v :: extract_values rest
  | .ref l :: rest => l :: extract_values rest
  | .other :: rest => extract_values rest

/-- Python dictionary assignment `attributes[attr_name] = values`:
overwrite an existing binding, else append a new one. -/
def dictInsert (d : Attrs) (k : String) (v : List (Option String)) : Attrs :=
  if d.any (fun p => p.1 == k) then
    d.map (fun p => if p.1 == k then (k, v) else p)
  else d ++ [(k, v)]

/-- `JiraAssets.extract_attribute_values`: keep records whose attribute id
maps to a truthy name, extract their value lists. -/
def extract_attribute_values (amap : Nat → Option String)
    (recs : List AttrRecord) : Attrs :=
  recs.foldl
    (fun acc attr =>
      match amap attr.objectTypeAttributeId with
      | some name => if name ≠ "" then dictInsert acc name (extract_values attr.objectAttributeValues) else acc
      | none => acc)
    []

/-! ## `app/helpres.py`: cache and helpers -/

/-- `get_task_cached`: return the cached entry when the key is present
(irrespective of the cached value, so a `none` result is cached the same
way), else fetch remotely and store. -/
def get_task_cached (env : Env) (cache : Cache) (key : String) :
    Option Ticket × Cache × List Act :=
  match cache.lookup key with
  | some t => (t, cache, [])
  | none => (env.getTask key, (key, env.getTask key) :: cache, [Act.getTask key])

/-- `clear_task_cache`: reset to the empty cache. -/
def clear_task_cache : Cache := []

/-- Python truthiness test for an optional string: `None` and the empty
string are falsy. -/
def strFalsy : Option String → Bool
  | none => true
  | some s => s == ""

/-- `attributes.get(name, [None])[0]`: an absent name yields `None`, a
present name yields the first value of its list, and an empty list raises
IndexError. -/
def attrFirst (attributes : Attrs) (name : String) :
    Except String (Option String) :=
  match attributes.lookup name with
  | none => .ok none
  | some [] => .error "IndexError"
  | some (v :: _) => .ok v

/-- `extract_update_date`: first Update value if truthy, parsed; parse
failure yields `none` (the function returns None after logging). -/
def extract_update_date (env : Env) (attributes : Attrs) :
    Except String (Option Int) :=
  match attrFirst attributes "Update" with
  | .error e => .error e
  | .ok o => if strFalsy o then .ok none else .ok (env.dateParse (o.getD ""))

/-- `is_task_for_update`: a falsy task is not an update task; otherwise the
labels must contain the marker label. -/
def is_task_for_update : Option Ticket → Bool
  | none => false
  | some t => t.labels.contains "AssetUpdate"

/-- `filter_update_issues`: keep the linked issues whose cached ticket
carries the AssetUpdate label. -/
def filter_update_issues (env : Env) : Cache → List String → List String × Cache × List Act
  | cache, [] => ([], cache, [])
  | cache, key :: rest =>
      let r := get_task_cached env cache key
      let r2 := filter_update_issues env r.2.1 rest
      (if is_task_for_update r.1 then key :: r2.1 else r2.1, r2.2.1, r.2.2 ++ r2.2.2)

/-! ## `app/jira_board.py`: named transitions -/

/-- `find_transition_by_name`: one `get_transitions` call, then the id of
the first transition whose name matches exactly. -/
def find_transition_by_name (env : Env) (issue_key transition_name : String) :
    List Act × Option String :=
  ([Act.getTransitions issue_key],
   ((env.transitions issue_key).find? (fun t => t.name == transition_name)).map (fun t => t.id))

/-- `transition_task_by_name`: raises ValueError when no (truthy) id is
found, else posts the transition.  The second component is the uncaught
exception. -/
def transition_task_by_name (env : Env) (issue_key transition_name : String) :
    List Act × Option String :=
  let r := find_transition_by_name env issue_key transition_name
  match r.2 with
  | none => (Act.transitionByName issue_key transition_name :: r.1,
             some "ValueError: Transition not found")
  | some tid =>
      if tid == "" then
        (Act.transitionByName issue_key transition_name :: r.1,
         some "ValueError: Transition not found")
      else
        (Act.transitionByName issue_key transition_name :: r.1 ++ [Act.transitionTask issue_key tid],
         none)

/-! ## `app/updater.py`: the reconciliation engine -/

/-- `process_linked_update_issue`: the ticket lifecycle decider. -/
def process_linked_update_issue (env : Env) (cache : Cache) (issue_key : String)
    (attributes : Attrs) (now : Int) : Step :=
  let r := get_task_cached env cache issue_key
  let tr := Act.invokeDecider issue_key :: r.2.2
  match r.1 with
  | none => ⟨r.2.1, tr, none⟩
  | some task =>
    let status := task.status
    match attrFirst attributes "Update" with
    | .error e => ⟨r.2.1, tr, some e⟩
    | .ok update_date_str =>
      if strFalsy update_date_str then ⟨r.2.1, tr, none⟩
      else
        match env.dateParse (update_date_str.getD "") with
        | none => ⟨r.2.1, tr, none⟩
        | some update_date =>
          if status ≠ "Done" then
            if update_date ≤ now then
              if status ≠ "In Progress" then
                let c := Act.addComment issue_key (COMMENT_REMINDER (update_date_str.getD ""))
                let t := transition_task_by_name env issue_key "In Progress"
                ⟨r.2.1, tr ++ [c] ++ t.1, t.2⟩
              else ⟨r.2.1, tr, none⟩
            else ⟨r.2.1, tr, none⟩
          else
            if update_date ≤ now then
              ⟨r.2.1, tr ++ [Act.addComment issue_key COMMENT_REQUEST_UPDATE], none⟩
            else ⟨r.2.1, tr, none⟩

/-- Python truthiness for the optional asset id (absent key or id 0). -/
def idFalsy : Option Nat → Bool
  | none => true
  | some n => n == 0

/-- `create_update_task`: the remediation creator.  Guards in source
order: configuration, asset id, an existing linked update issue, asset
name, due date; then the assignee resolution and the creation call.  The
response key check only affects logging and is not modelled. -/
def create_update_task (env : Env) (cache : Cache) (asset : Asset)
    (attributes : Attrs) : Step :=
  let tr0 := [Act.invokeCreator]
  if strFalsy env.workspaceId || strFalsy env.projectKey then ⟨cache, tr0, none⟩
  else if idFalsy asset.id then ⟨cache, tr0, none⟩
  else
    let asset_id := asset.id.getD 0
    let r := filter_update_issues env cache (env.linkedTickets asset_id)
    let tr1 := tr0 ++ [Act.fetchLinked asset_id] ++ r.2.2
    match r.1 with
    | _ :: _ => ⟨r.2.1, tr1, none⟩
    | [] =>
      match attrFirst attributes "Name" with
      | .error e => ⟨r.2.1, tr1, some e⟩
      | .ok nameOpt =>
        if strFalsy nameOpt then ⟨r.2.1, tr1, none⟩
        else
          match attrFirst attributes "Update" with
          | .error e => ⟨r.2.1, tr1, some e⟩
          | .ok dueOpt =>
            if strFalsy dueOpt then ⟨r.2.1, tr1, none⟩
            else
              match attrFirst attributes "Primary Responsible Employee" with
              | .error e => ⟨r.2.1, tr1, some e⟩
              | .ok assigneeName =>
                let assignee_id :=
                  if strFalsy assigneeName then none
                  else env.assigneeMapping (assigneeName.getD "")
                let assignee :=
                  match assignee_id with
                  | some n => if n ≠ 0 then some n else none
                  | none => none
                let asset_name := nameOpt.getD ""
                let duedate := dueOpt.getD ""
                ⟨r.2.1,
                 tr1 ++ [Act.createTask (TASK_SUMMARY_TEMPLATE asset_name)
                   (TASK_DESCRIPTION_TEMPLATE asset_name) duedate ["AssetUpdate"]
                   assignee (env.workspaceId.getD "") asset_id],
                 none⟩

/-- The `for issue in update_issues` loop of `handle_overdue_asset`; an
uncaught exception aborts the remaining iterations. -/
def for_each_update_issue (env : Env) (attributes : Attrs) (now : Int) :
    Cache → List String → Step
  | cache, [] => ⟨cache, [], none⟩
  | cache, k :: ks =>
      let s := process_linked_update_issue env cache k attributes now
      match s.exn with
      | some e => ⟨s.cache, s.trace, some e⟩
      | none =>
          let s2 := for_each_update_issue env attributes now s.cache ks
          ⟨s2.cache, s.trace ++ s2.trace, s2.exn⟩

/-- `handle_overdue_asset`: route every linked update issue through the
decider, or create a task when none exist.  `asset["id"]` raises KeyError
when absent. -/
def handle_overdue_asset (env : Env) (cache : Cache) (asset : Asset)
    (attributes : Attrs) (now : Int) : Step :=
  match asset.id with
  | none => ⟨cache, [], some "KeyError: id"⟩
  | some asset_id =>
    let r := filter_update_issues env cache (env.linkedTickets asset_id)
    let tr1 := Act.fetchLinked asset_id :: r.2.2
    match r.1 with
    | _ :: _ =>
        let s := for_each_update_issue env attributes now r.2.1 r.1
        ⟨s.cache, tr1 ++ s.trace, s.exn⟩
    | [] =>
        let s := create_update_task env r.2.1 asset attributes
        ⟨s.cache, tr1 ++ s.trace, s.exn⟩

/-- The active-issue scan of `handle_future_asset`: statuses are compared
against the literal list of the source, breaking at the first match; an
unfetchable task is skipped. -/
def active_issue_search (env : Env) : Cache → List String → Bool × Cache × List Act
  | cache, [] => (false, cache, [])
  | cache, k :: ks =>
      let r := get_task_cached env cache k
      match r.1 with
      | none =>
          let r2 := active_issue_search env r.2.1 ks
          (r2.1, r2.2.1, r.2.2 ++ r2.2.2)
      | some t =>
          if t.status == "TO DO" || t.status == "In Progress" then (true, r.2.1, r.2.2)
          else
            let r2 := active_issue_search env r.2.1 ks
            (r2.1, r2.2.1, r.2.2 ++ r2.2.2)

/-- `handle_future_asset` (the source also receives the parsed update date
but never uses it). -/
def handle_future_asset (env : Env) (cache : Cache) (asset : Asset)
    (attributes : Attrs) : Step :=
  match asset.id with
  | none => ⟨cache, [], some "KeyError: id"⟩
  | some asset_id =>
    let r := filter_update_issues env cache (env.linkedTickets asset_id)
    let tr1 := Act.fetchLinked asset_id :: r.2.2
    let a := active_issue_search env r.2.1 r.1
    if a.1 then ⟨a.2.1, tr1 ++ a.2.2, none⟩
    else
      let s := create_update_task env a.2.1 asset attributes
      ⟨s.cache, tr1 ++ a.2.2 ++ s.trace, s.exn⟩

/-- Urgency classes of an asset, derived in `process_asset_update`. -/
inductive Urgency where
  | Overdue
  | DueSoon
  | Current
deriving Repr, DecidableEq

/-- The urgency comparison of `process_asset_update`:
`time_diff.total_seconds() <= 0`, then `<= UPDATE_WARNING_SECONDS`. -/
def classify_urgency (update_date now : Int) : Urgency :=
  if update_date - now ≤ 0 then .Overdue
  else if update_date - now ≤ UPDATE_WARNING_SECONDS then .DueSoon
  else .Current

/-- `process_asset_update`: extract attributes, parse the Update date,
classify, dispatch. -/
def process_asset_update (env : Env) (cache : Cache) (asset : Asset)
    (now : Int) : Step :=
  let attributes := extract_attribute_values env.attributeMap asset.attributes
  match extract_update_date env attributes with
  | .error e => ⟨cache, [], some e⟩
  | .ok none => ⟨cache, [], none⟩
  | .ok (some update_date) =>
      match classify_urgency update_date now with
      | .Overdue => handle_overdue_asset env cache asset attributes now
      | .DueSoon => handle_future_asset env cache asset attributes
      | .Current => ⟨cache, [], none⟩

/-- `process_assets_with_update`: the per-pass loop over assets; an
uncaught exception aborts the remaining assets. -/
def process_assets_with_update (env : Env) : Cache → List Asset → Int → Step
  | cache, [], _ => ⟨cache, [], none⟩
  | cache, a :: rest, now =>
      let s := process_asset_update env cache a now
      match s.exn with
      | some e => ⟨s.cache, s.trace, some e⟩
      | none =>
          let s2 := process_assets_with_update env s.cache rest now
          ⟨s2.cache, s.trace ++ s2.trace, s2.exn⟩

/-- One iteration of `run_every_10_minutes`: clear the cache, then process
the queried batch. -/
def run_single_pass (env : Env) (assets : List Asset) (now : Int) : Step :=
  process_assets_with_update env clear_task_cache assets now

/-! ## Cache consistency: every cached entry agrees with the remote -/

/-- All cache entries were produced by `Env.getTask` (true of every cache
the program ever builds within a pass). -/
def CacheOk (env : Env) (cache : Cache) : Prop :=
  ∀ p ∈ cache, p.2 = env.getTask p.1

theorem cacheOk_nil (env : Env) : CacheOk env clear_task_cache := by
  intro p hp
  simp [clear_task_cache] at hp

theorem cacheOk_lookup {env : Env} {cache : Cache} {k : String}
    {v : Option Ticket} (h : CacheOk env cache) (hl : cache.lookup k = some v) :
    v = env.getTask k := by
  induction cache with
  | nil => simp at hl
  | cons p rest ih =>
      obtain ⟨a, b⟩ := p
      by_cases hk : k = a
      · subst hk
        simp [List.lookup] at hl
        exact hl ▸ h ⟨k, b⟩ (by simp)
      · have hne : (k == a) = false := beq_eq_false_iff_ne.2 hk
        simp [List.lookup, hne] at hl
        exact ih (fun q hq => h q (by simp [hq])) hl

theorem get_task_cached_val {env : Env} {cache : Cache} {k : String}
    (h : CacheOk env cache) : (get_task_cached env cache k).1 = env.getTask k := by
  unfold get_task_cached
  cases hl : cache.lookup k with
  | none => simp
  | some v => simpa using cacheOk_lookup h hl

theorem get_task_cached_cacheOk {env : Env} {cache : Cache} {k : String}
    (h : CacheOk env cache) : CacheOk env (get_task_cached env cache k).2.1 := by
  unfold get_task_cached
  cases hl : cache.lookup k with
  | none =>
      simp only
      intro p hp
      rcases List.mem_cons.1 hp with hp | hp
      · subst hp; rfl
      · exact h p hp
  | some v => simpa using h

theorem get_task_cached_trace_get {env : Env} {cache : Cache} {k : String} :
    ∀ a ∈ (get_task_cached env cache k).2.2, isGetTask a = true := by
  unfold get_task_cached
  cases hl : cache.lookup k with
  | none => simp [isGetTask]
  | some v => simp

/-! ## Trace-shape lemmas -/

theorem isGetTask_flags {a : Act} (h : isGetTask a = true) :
    Act.isTicketCall a = false ∧ Act.isCreate a = false ∧
    isInvokeDecider a = false ∧ isInvokeCreator a = false := by
  cases a <;> simp_all [isGetTask, Act.isTicketCall, Act.isCreate,
    isInvokeDecider, isInvokeCreator]

theorem getTask_only_trace {tr : List Act} (h : ∀ a ∈ tr, isGetTask a = true) :
    tr.filter Act.isTicketCall = [] ∧ tr.filter Act.isCreate = [] ∧
    tr.countP isInvokeDecider = 0 ∧ tr.countP isInvokeCreator = 0 := by
  refine ⟨List.filter_eq_nil_iff.2 ?_, List.filter_eq_nil_iff.2 ?_,
    List.countP_eq_zero.2 ?_, List.countP_eq_zero.2 ?_⟩ <;>
    intro a ha <;> simp [(isGetTask_flags (h a ha)).1, (isGetTask_flags (h a ha)).2.1,
      (isGetTask_flags (h a ha)).2.2.1, (isGetTask_flags (h a ha)).2.2.2]

/-! ## Behaviour of the link filter and the active-status scan -/

theorem filter_update_issues_spec (env : Env) :
    ∀ (keys : List String) (cache : Cache), CacheOk env cache →
      (filter_update_issues env cache keys).1 =
        keys.filter (fun k => is_task_for_update (env.getTask k)) ∧
      CacheOk env (filter_update_issues env cache keys).2.1 ∧
      ∀ a ∈ (filter_update_issues env cache keys).2.2, isGetTask a = true := by
  intro keys
  induction keys with
  | nil =>
      intro cache h
      exact ⟨rfl, h, by simp [filter_update_issues]⟩
  | cons k ks ih =>
      intro cache h
      have hv := @get_task_cached_val env cache k h
      have hok := @get_task_cached_cacheOk env cache k h
      obtain ⟨h1, h2, h3⟩ := ih (get_task_cached env cache k).2.1 hok
      refine ⟨?_, h2, ?_⟩
      · simp only [filter_update_issues, hv, h1, List.filter_cons]
      · intro a ha
        simp only [filter_update_issues, List.mem_append] at ha
        rcases ha with ha | ha
        · exact get_task_cached_trace_get a ha
        · exact h3 a ha

/-- Status test of the active-issue scan, phrased against the remote. -/
def matchesActive (env : Env) (k : String) : Bool :=
  match env.getTask k with
  | some t => t.status == "TO DO" || t.status == "In Progress"
  | none => false

theorem active_issue_search_spec (env : Env) :
    ∀ (keys : List String) (cache : Cache), CacheOk env cache →
      (active_issue_search env cache keys).1 = keys.any (matchesActive env) ∧
      CacheOk env (active_issue_search env cache keys).2.1 ∧
      ∀ a ∈ (active_issue_search env cache keys).2.2, isGetTask a = true := by
  intro keys
  induction keys with
  | nil =>
      intro cache h
      exact ⟨rfl, h, by simp [active_issue_search]⟩
  | cons k ks ih =>
      intro cache h
      have hv := @get_task_cached_val env cache k h
      have hok := @get_task_cached_cacheOk env cache k h
      obtain ⟨h1, h2, h3⟩ := ih (get_task_cached env cache k).2.1 hok
      cases hg : env.getTask k with
      | none =>
          simp only [active_issue_search, hv, hg]
          refine ⟨?_, h2, ?_⟩
          · simp [h1, matchesActive, hg]
          · intro a ha
            rcases List.mem_append.1 ha with ha | ha
            · exact get_task_cached_trace_get a ha
            · exact h3 a ha
      | some t =>
          by_cases hb : (t.status == "TO DO" || t.status == "In Progress") = true
          · simp only [active_issue_search, hv, hg, hb, if_true]
            refine ⟨?_, hok, ?_⟩
            · simp [matchesActive, hg, hb]
            · intro a ha
              exact get_task_cached_trace_get a ha
          · simp only [active_issue_search, hv, hg]
            rw [if_neg hb]
            refine ⟨?_, h2, ?_⟩
            · simp only [List.any_cons, h1, matchesActive, hg]
              rw [Bool.not_eq_true] at hb
              rw [hb, Bool.false_or]
            · intro a ha
              rcases List.mem_append.1 ha with ha | ha
              · exact get_task_cached_trace_get a ha
              · exact h3 a ha

/-! ## Claim theorems: C3, C6, C10 -/

/-- C3: the urgency classification is a pure function of the due date and
now with the five-day warning window: dueDate at or before now is Overdue,
strictly between now and now plus the window is DueSoon, later is Current;
at the boundaries, dueDate equal to now is Overdue and dueDate equal to
now plus the window is DueSoon. -/
theorem claim3_urgency : ∀ update_date now : Int,
    (classify_urgency update_date now = .Overdue ↔ update_date ≤ now) ∧
    (classify_urgency update_date now = .DueSoon ↔
      now < update_date ∧ update_date ≤ now + UPDATE_WARNING_SECONDS) ∧
    (classify_urgency update_date now = .Current ↔
      now + UPDATE_WARNING_SECONDS < update_date) ∧
    classify_urgency now now = .Overdue ∧
    classify_urgency (now + UPDATE_WARNING_SECONDS) now = .DueSoon ∧
    UPDATE_WARNING_SECONDS = 5 * 86400 := by
  intro d n
  have h5 : UPDATE_WARNING_SECONDS = 432000 := by
    norm_num [UPDATE_WARNING_SECONDS, UPDATE_WARNING_DAYS, ONE_DAY_SECONDS]
  refine ⟨?_, ?_, ?_, ?_, ?_, by omega⟩ <;>
    simp only [classify_urgency, h5] <;> split_ifs <;> (try simp) <;> omega

/-- C6: within one pass, two lookups of the same ticket key through the
cache issue exactly one remote fetch (this holds for every remote result,
including a falsy one cached as `none`), and a reset of the cache followed
by a lookup always issues a fresh remote fetch. -/
theorem claim6_cache : ∀ (env : Env) (k : String),
    ((get_task_cached env clear_task_cache k).2.2 = [Act.getTask k] ∧
     (get_task_cached env clear_task_cache k).1 = env.getTask k ∧
     (get_task_cached env (get_task_cached env clear_task_cache k).2.1 k).2.2 = [] ∧
     (get_task_cached env (get_task_cached env clear_task_cache k).2.1 k).1 =
       env.getTask k) ∧
    ∀ cache : Cache,
      (get_task_cached env (get_task_cached env cache k).2.1 k).2.2 = [] ∧
      (get_task_cached env (get_task_cached env cache k).2.1 k).1 =
        (get_task_cached env cache k).1 := by
  intro env k
  constructor
  · simp [get_task_cached, clear_task_cache, List.lookup]
  · intro cache
    unfold get_task_cached
    cases hl : cache.lookup k with
    | some t => simp [hl]
    | none => simp [hl, List.lookup]

/-- C10: for a raw attribute record whose attribute id is in the attribute
map, the extractor appends, per value entry, the literal value when a
value field is present and otherwise the referenced object label; a
referenced object without a label appends `none` rather than skipping the
entry, so the first extracted value of a present attribute may be null. -/
theorem claim10_extractor (amap : Nat → Option String) (aid : Nat)
    (name : String) (entries : List AttrValue)
    (h1 : amap aid = some name) (h2 : name ≠ "") :
    extract_attribute_values amap [⟨aid, entries⟩] = [(name, extract_values entries)] ∧
    (∀ v rest, extract_values (.lit v :: rest) = v :: extract_values rest) ∧
    (∀ l rest, extract_values (.ref l :: rest) = l :: extract_values rest) ∧
    (∀ rest, extract_values (.ref none :: rest) = none :: extract_values rest) ∧
    (∀ rest, extract_values (.other :: rest) = extract_values rest) := by
  refine ⟨?_, fun v rest => rfl, fun l rest => rfl, fun rest => rfl, fun rest => rfl⟩
  simp [extract_attribute_values, h1, h2, dictInsert]

/-- Witness for C10: a mapped attribute whose single value entry is a
referenced object without a label extracts to the one-element list holding
null. -/
theorem claim10_witness :
    extract_attribute_values (fun i => if i = 7 then some "Update" else none)
      [⟨7, [AttrValue.ref none]⟩] = [("Update", [none])] := by
  have h := (claim10_extractor (fun i => if i = 7 then some "Update" else none)
    7 "Update" [AttrValue.ref none] (by simp) (by decide)).1
  simpa [extract_values] using h

/-! ## The named-transition wrapper trace -/

theorem transition_task_by_name_trace (env : Env) (k n : String) :
    (transition_task_by_name env k n).1.filter Act.isTicketCall =
      [Act.transitionByName k n] ∧
    (transition_task_by_name env k n).1.filter Act.isCreate = [] ∧
    (transition_task_by_name env k n).1.countP isInvokeDecider = 0 ∧
    (transition_task_by_name env k n).1.countP isInvokeCreator = 0 := by
  unfold transition_task_by_name find_transition_by_name
  cases hf : (env.transitions k).find? (fun t => t.name == n) with
  | none =>
      simp [Act.isTicketCall, Act.isCreate, isInvokeDecider, isInvokeCreator]
  | some ti =>
      by_cases hi : (ti.id == "") = true
      · simp [hi, Act.isTicketCall, Act.isCreate, isInvokeDecider, isInvokeCreator]
      · simp [hi, Act.isTicketCall, Act.isCreate, isInvokeDecider, isInvokeCreator]

/-! ## Claim theorems: C4 and C8 -/

/-- C4: decision table of the lifecycle decider for a fetched ticket with
a present, parseable due date: not Done and overdue and not In Progress
issues exactly the reminder comment (whose text contains the due date)
followed by the In Progress transition request; In Progress and overdue is
a no-op; Done and overdue issues only the re-update comment; a future due
date is a no-op. -/
theorem claim4_decider_table (env : Env) (cache : Cache) (issue_key : String)
    (ats : Attrs) (now d : Int) (t : Ticket) (s : String)
    (hC : CacheOk env cache)
    (ht : env.getTask issue_key = some t)
    (hu : attrFirst ats "Update" = .ok (some s))
    (hs : s ≠ "")
    (hd : env.dateParse s = some d) :
    (t.status ≠ "Done" → d ≤ now → t.status ≠ "In Progress" →
      (process_linked_update_issue env cache issue_key ats now).trace.filter Act.isTicketCall =
        [Act.addComment issue_key (COMMENT_REMINDER s),
         Act.transitionByName issue_key "In Progress"] ∧
      ∃ pre post, (COMMENT_REMINDER s).data = pre ++ s.data ++ post) ∧
    (t.status = "In Progress" → d ≤ now →
      (process_linked_update_issue env cache issue_key ats now).trace.filter Act.isTicketCall = [] ∧
      (process_linked_update_issue env cache issue_key ats now).exn = none) ∧
    (t.status = "Done" → d ≤ now →
      (process_linked_update_issue env cache issue_key ats now).trace.filter Act.isTicketCall =
        [Act.addComment issue_key COMMENT_REQUEST_UPDATE] ∧
      (process_linked_update_issue env cache issue_key ats now).exn = none) ∧
    (now < d →
      (process_linked_update_issue env cache issue_key ats now).trace.filter Act.isTicketCall = [] ∧
      (process_linked_update_issue env cache issue_key ats now).exn = none) := by
  have hval : (get_task_cached env cache issue_key).1 = some t := by
    rw [get_task_cached_val hC, ht]
  have htr := getTask_only_trace
    (@get_task_cached_trace_get env cache issue_key)
  have hsf : strFalsy (some s) = false := by simp [strFalsy, hs]
  have htt := transition_task_by_name_trace env issue_key "In Progress"
  refine ⟨?_, ?_, ?_, ?_⟩
  · intro h1 h2 h3
    constructor
    · simp [process_linked_update_issue, hval, hu, hsf, hd, h1, h2, h3,
        List.filter_append, htr.1, htt.1, Act.isTicketCall]
    · exact ⟨"Reminder: The asset update is overdue (Update date: ".data,
        "). Please update the asset.".data, by simp [COMMENT_REMINDER]⟩
  · intro h1 h2
    have hnd : t.status ≠ "Done" := by rw [h1]; decide
    simp [process_linked_update_issue, hval, hu, hsf, hd, h1, h2, hnd,
      List.filter_append, htr.1]
    exact ⟨rfl, fun a ha => (isGetTask_flags (get_task_cached_trace_get a ha)).1⟩
  · intro h1 h2
    simp [process_linked_update_issue, hval, hu, hsf, hd, h1, h2,
      List.filter_append, htr.1, Act.isTicketCall]
  · intro h4
    have hnle : ¬ (d ≤ now) := not_le.2 h4
    by_cases hdn : t.status = "Done"
    · simp [process_linked_update_issue, hval, hu, hsf, hd, hdn, hnle,
        List.filter_append, htr.1]
      exact ⟨rfl, fun a ha => (isGetTask_flags (get_task_cached_trace_get a ha)).1⟩
    · simp [process_linked_update_issue, hval, hu, hsf, hd, hdn, hnle,
        List.filter_append, htr.1]
      exact ⟨rfl, fun a ha => (isGetTask_flags (get_task_cached_trace_get a ha)).1⟩

/-- Environment for the C4 witness: one ticket in status To Do whose
In Progress transition exists. -/
def env4 : Env where
  getTask := fun k => if k = "T" then some ⟨"To Do", ["AssetUpdate"]⟩ else none
  linkedTickets := fun _ => []
  transitions := fun k => if k = "T" then [⟨"In Progress", "31"⟩] else []
  dateParse := fun s => if s = "2024-01-01" then some 10 else none
  workspaceId := some "ws"
  projectKey := some "PRJ"
  assigneeMapping := fun _ => none
  attributeMap := fun _ => none

/-- Witness for C4: the overdue, not-Done, not-In-Progress row at a
concrete ticket. -/
theorem claim4_witness :
    (process_linked_update_issue env4 clear_task_cache "T"
        [("Update", [some "2024-01-01"])] 20).trace.filter Act.isTicketCall =
      [Act.addComment "T" (COMMENT_REMINDER "2024-01-01"),
       Act.transitionByName "T" "In Progress"] ∧
    ∃ pre post, (COMMENT_REMINDER "2024-01-01").data =
      pre ++ "2024-01-01".data ++ post :=
  (claim4_decider_table env4 clear_task_cache "T"
      [("Update", [some "2024-01-01"])] 20 10 ⟨"To Do", ["AssetUpdate"]⟩
      "2024-01-01" (cacheOk_nil env4) (by decide) rfl (by decide)
      (by decide)).1 (by decide) (by decide) (by decide)

/-- C8: a missing, empty or unparseable due-date string stops the decider
for the ticket with no remote ticket operation and no exception; the
status comparison is exact and case-sensitive, so any status other than
the literal string Done flows through the not-Done branches (for an
overdue date and a status also different from In Progress, the reminder
comment and the In Progress transition request are issued). -/
theorem claim8_edge (env : Env) (cache : Cache) (issue_key : String)
    (now : Int) (t : Ticket)
    (hC : CacheOk env cache)
    (ht : env.getTask issue_key = some t) :
    (∀ ats : Attrs, attrFirst ats "Update" = .ok none →
      (process_linked_update_issue env cache issue_key ats now).trace.filter Act.isTicketCall = [] ∧
      (process_linked_update_issue env cache issue_key ats now).exn = none) ∧
    (∀ ats : Attrs, attrFirst ats "Update" = .ok (some "") →
      (process_linked_update_issue env cache issue_key ats now).trace.filter Act.isTicketCall = [] ∧
      (process_linked_update_issue env cache issue_key ats now).exn = none) ∧
    (∀ (ats : Attrs) (su : String), attrFirst ats "Update" = .ok (some su) →
      su ≠ "" → env.dateParse su = none →
      (process_linked_update_issue env cache issue_key ats now).trace.filter Act.isTicketCall = [] ∧
      (process_linked_update_issue env cache issue_key ats now).exn = none) ∧
    (∀ (ats : Attrs) (su : String) (dd : Int),
      attrFirst ats "Update" = .ok (some su) → su ≠ "" →
      env.dateParse su = some dd → dd ≤ now →
      t.status ≠ "Done" → t.status ≠ "In Progress" →
      (process_linked_update_issue env cache issue_key ats now).trace.filter Act.isTicketCall =
        [Act.addComment issue_key (COMMENT_REMINDER su),
         Act.transitionByName issue_key "In Progress"]) := by
  have hval : (get_task_cached env cache issue_key).1 = some t := by
    rw [get_task_cached_val hC, ht]
  have htr := getTask_only_trace
    (@get_task_cached_trace_get env cache issue_key)
  refine ⟨?_, ?_, ?_, ?_⟩
  · intro ats hu
    simp [process_linked_update_issue, hval, hu, strFalsy,
      List.filter_append, htr.1]
    exact ⟨rfl, fun a ha => (isGetTask_flags (get_task_cached_trace_get a ha)).1⟩
  · intro ats hu
    simp [process_linked_update_issue, hval, hu, strFalsy,
      List.filter_append, htr.1]
    exact ⟨rfl, fun a ha => (isGetTask_flags (get_task_cached_trace_get a ha)).1⟩
  · intro ats su hu hsu hdp
    have hsf : strFalsy (some su) = false := by simp [strFalsy, hsu]
    simp [process_linked_update_issue, hval, hu, hsf, hdp,
      List.filter_append, htr.1]
    exact ⟨rfl, fun a ha => (isGetTask_flags (get_task_cached_trace_get a ha)).1⟩
  · intro ats su dd hu hsu hdp hle h1 h2
    have hsf : strFalsy (some su) = false := by simp [strFalsy, hsu]
    have htt := transition_task_by_name_trace env issue_key "In Progress"
    simp [process_linked_update_issue, hval, hu, hsf, hdp, hle, h1, h2,
      List.filter_append, htr.1, htt.1, Act.isTicketCall]

/-- Environment for the C8 witness: one ticket with the unrecognized
status Blocked. -/
def env8 : Env where
  getTask := fun k => if k = "T" then some ⟨"Blocked", ["AssetUpdate"]⟩ else none
  linkedTickets := fun _ => []
  transitions := fun _ => []
  dateParse := fun s => if s = "2024-01-01" then some 10 else none
  workspaceId := some "ws"
  projectKey := some "PRJ"
  assigneeMapping := fun _ => none
  attributeMap := fun _ => none

/-- Witness for C8: a missing due date is a no-op for the ticket, and the
unrecognized status Blocked takes the not-Done overdue branch. -/
theorem claim8_witness :
    ((process_linked_update_issue env8 clear_task_cache "T" [] 20).trace.filter Act.isTicketCall = [] ∧
     (process_linked_update_issue env8 clear_task_cache "T" [] 20).exn = none) ∧
    (process_linked_update_issue env8 clear_task_cache "T"
        [("Update", [some "2024-01-01"])] 20).trace.filter Act.isTicketCall =
      [Act.addComment "T" (COMMENT_REMINDER "2024-01-01"),
       Act.transitionByName "T" "In Progress"] :=
  ⟨(claim8_edge env8 clear_task_cache "T" 20 ⟨"Blocked", ["AssetUpdate"]⟩
      (cacheOk_nil env8) (by decide)).1 [] rfl,
   (claim8_edge env8 clear_task_cache "T" 20 ⟨"Blocked", ["AssetUpdate"]⟩
      (cacheOk_nil env8) (by decide)).2.2.2 [("Update", [some "2024-01-01"])]
      "2024-01-01" 10 rfl (by decide) (by decide) (by decide)
      (by decide) (by decide)⟩

/-! ## Trace facts about the link filter, used by the creator claims -/

theorem filter_trace_isCreate {env : Env} {cache : Cache} {keys : List String}
    (hC : CacheOk env cache) {a : Act}
    (ha : a ∈ (filter_update_issues env cache keys).2.2) :
    Act.isCreate a = false :=
  (isGetTask_flags ((filter_update_issues_spec env keys cache hC).2.2 a ha)).2.1

theorem filter_trace_create_nil {env : Env} {cache : Cache} {keys : List String}
    (hC : CacheOk env cache) :
    (filter_update_issues env cache keys).2.2.filter Act.isCreate = [] :=
  List.filter_eq_nil_iff.2 fun a ha => by
    simp [filter_trace_isCreate hC ha]

/-! ## Claim theorem: C7 -/

/-- C7: the remediation creator never submits a ticket when the asset name
or the due-date attribute is missing (each is a hard stop with no creation
call); every ticket it does submit carries the AssetUpdate marker label
and the asset due date; and a responsible-person name without a mapping
entry, or mapping to the id zero, yields a ticket submitted without an
assignee rather than an error. -/
theorem claim7_creator (env : Env) (cache : Cache) (asset : Asset)
    (ats : Attrs) (hC : CacheOk env cache) :
    (∀ o, attrFirst ats "Name" = .ok o → strFalsy o = true →
      (create_update_task env cache asset ats).trace.filter Act.isCreate = []) ∧
    (∀ o, attrFirst ats "Update" = .ok o → strFalsy o = true →
      (create_update_task env cache asset ats).trace.filter Act.isCreate = []) ∧
    (∀ su de du lb asg w oid,
      Act.createTask su de du lb asg w oid ∈ (create_update_task env cache asset ats).trace →
      lb = ["AssetUpdate"] ∧ attrFirst ats "Update" = .ok (some du) ∧ du ≠ "") ∧
    (∀ aid nm du anm,
      strFalsy env.workspaceId = false → strFalsy env.projectKey = false →
      asset.id = some aid → aid ≠ 0 →
      (env.linkedTickets aid).filter (fun k => is_task_for_update (env.getTask k)) = [] →
      attrFirst ats "Name" = .ok (some nm) → nm ≠ "" →
      attrFirst ats "Update" = .ok (some du) → du ≠ "" →
      attrFirst ats "Primary Responsible Employee" = .ok anm →
      (strFalsy anm = true ∨ env.assigneeMapping (anm.getD "") = none ∨
        env.assigneeMapping (anm.getD "") = some 0) →
      Act.createTask (TASK_SUMMARY_TEMPLATE nm) (TASK_DESCRIPTION_TEMPLATE nm)
          du ["AssetUpdate"] none (env.workspaceId.getD "") aid ∈
        (create_update_task env cache asset ats).trace ∧
      (create_update_task env cache asset ats).exn = none) := by
  have hfc := @filter_trace_create_nil env cache
    (env.linkedTickets (asset.id.getD 0)) hC
  refine ⟨?_, ?_, ?_, ?_⟩
  · intro o ho hfo
    by_cases hg1 : (strFalsy env.workspaceId || strFalsy env.projectKey) = true
    · simp [create_update_task, hg1, Act.isCreate]
    · by_cases hg2 : idFalsy asset.id = true
      · simp [create_update_task, hg1, hg2, Act.isCreate]
      · cases hr : (filter_update_issues env cache
            (env.linkedTickets (asset.id.getD 0))).1 with
        | cons x xs =>
            simp [create_update_task, hg1, hg2, hr, Act.isCreate,
              List.filter_append, hfc]
        | nil =>
            simp [create_update_task, hg1, hg2, hr, ho, hfo, Act.isCreate,
              List.filter_append, hfc]
  · intro o ho hfo
    by_cases hg1 : (strFalsy env.workspaceId || strFalsy env.projectKey) = true
    · simp [create_update_task, hg1, Act.isCreate]
    · by_cases hg2 : idFalsy asset.id = true
      · simp [create_update_task, hg1, hg2, Act.isCreate]
      · cases hr : (filter_update_issues env cache
            (env.linkedTickets (asset.id.getD 0))).1 with
        | cons x xs =>
            simp [create_update_task, hg1, hg2, hr, Act.isCreate,
              List.filter_append, hfc]
        | nil =>
            cases hn : attrFirst ats "Name" with
            | error e =>
                simp [create_update_task, hg1, hg2, hr, hn, Act.isCreate,
                  List.filter_append, hfc]
            | ok no =>
                by_cases hno : strFalsy no = true
                · simp [create_update_task, hg1, hg2, hr, hn, hno,
                    Act.isCreate, List.filter_append, hfc]
                · simp [create_update_task, hg1, hg2, hr, hn, hno, ho, hfo,
                    Act.isCreate, List.filter_append, hfc]
  · intro su de du lb asg w oid hmem
    by_cases hg1 : (strFalsy env.workspaceId || strFalsy env.projectKey) = true
    · simp [create_update_task, hg1] at hmem
    · by_cases hg2 : idFalsy asset.id = true
      · simp [create_update_task, hg1, hg2] at hmem
      · cases hr : (filter_update_issues env cache
            (env.linkedTickets (asset.id.getD 0))).1 with
        | cons x xs =>
            simp [create_update_task, hg1, hg2, hr] at hmem
            exact absurd (filter_trace_isCreate hC hmem) (by simp [Act.isCreate])
        | nil =>
            cases hn : attrFirst ats "Name" with
            | error e =>
                simp [create_update_task, hg1, hg2, hr, hn] at hmem
                exact absurd (filter_trace_isCreate hC hmem) (by simp [Act.isCreate])
            | ok no =>
                by_cases hno : strFalsy no = true
                · simp [create_update_task, hg1, hg2, hr, hn, hno] at hmem
                  exact absurd (filter_trace_isCreate hC hmem) (by simp [Act.isCreate])
                · cases hdu : attrFirst ats "Update" with
                  | error e =>
                      simp [create_update_task, hg1, hg2, hr, hn, hno, hdu] at hmem
                      exact absurd (filter_trace_isCreate hC hmem) (by simp [Act.isCreate])
                  | ok dno =>
                      by_cases hdno : strFalsy dno = true
                      · simp [create_update_task, hg1, hg2, hr, hn, hno, hdu,
                          hdno] at hmem
                        exact absurd (filter_trace_isCreate hC hmem) (by simp [Act.isCreate])
                      · cases ha : attrFirst ats "Primary Responsible Employee" with
                        | error e =>
                            simp [create_update_task, hg1, hg2, hr, hn, hno,
                              hdu, hdno, ha] at hmem
                            exact absurd (filter_trace_isCreate hC hmem) (by simp [Act.isCreate])
                        | ok anm =>
                            simp [create_update_task, hg1, hg2, hr, hn, hno,
                              hdu, hdno, ha] at hmem
                            rcases hmem with hmem | hmem
                            · exact absurd (filter_trace_isCreate hC hmem) (by simp [Act.isCreate])
                            · obtain ⟨h1, h2, h3, h4, h5, h6, h7⟩ := hmem
                              cases dno with
                              | none => simp [strFalsy] at hdno
                              | some dv =>
                                  have hdv : du = dv := by simpa using h3
                                  subst hdv
                                  exact ⟨h4, rfl, by
                                    intro hduE
                                    rw [hduE] at hdno
                                    simp [strFalsy] at hdno⟩
  · intro aid nm du anm hw hp hid hid0 hfil hnm hnm0 hdu hdu0 hanm hasg
    have hg1 : (strFalsy env.workspaceId || strFalsy env.projectKey) = true ↔ False := by
      simp [hw, hp]
    have hg2 : idFalsy asset.id = false := by simp [idFalsy, hid, hid0]
    have hgd : asset.id.getD 0 = aid := by simp [hid]
    have hr : (filter_update_issues env cache (env.linkedTickets aid)).1 = [] := by
      rw [(filter_update_issues_spec env (env.linkedTickets aid) cache hC).1]
      exact hfil
    have hnm' : strFalsy (some nm) = false := by simp [strFalsy, hnm0]
    have hdu' : strFalsy (some du) = false := by simp [strFalsy, hdu0]
    have hasg' : (if strFalsy anm then none
        else env.assigneeMapping (anm.getD "")) = none ∨
        (if strFalsy anm then none
        else env.assigneeMapping (anm.getD "")) = some 0 := by
      by_cases h : strFalsy anm = true
      · left; simp [h]
      · rcases hasg with h1 | h1 | h1
        · exact absurd h1 h
        · left; simp [h, h1]
        · right; simp [h, h1]
    rcases hasg' with h1 | h1 <;>
      simp [create_update_task, hw, hp, hg2, hgd, hr, hnm, hnm', hdu, hdu',
        hanm, h1]

/-- Environment for the C7 witness: a due-soon asset with no linked
tickets and a responsible person missing from the assignee mapping. -/
def env7 : Env where
  getTask := fun _ => none
  linkedTickets := fun _ => []
  transitions := fun _ => []
  dateParse := fun s => if s = "2024-01-01" then some 10 else none
  workspaceId := some "ws"
  projectKey := some "PRJ"
  assigneeMapping := fun _ => none
  attributeMap := fun _ => none

/-- Witness for C7: with name, due date and an unmapped responsible
person, the creator submits exactly one unassigned ticket with the marker
label and the due date. -/
theorem claim7_witness :
    Act.createTask (TASK_SUMMARY_TEMPLATE "Box") (TASK_DESCRIPTION_TEMPLATE "Box")
        "2024-01-01" ["AssetUpdate"] none "ws" 5 ∈
      (create_update_task env7 clear_task_cache ⟨some 5, []⟩
        [("Name", [some "Box"]), ("Update", [some "2024-01-01"]),
         ("Primary Responsible Employee", [some "Ann"])]).trace ∧
    (create_update_task env7 clear_task_cache ⟨some 5, []⟩
        [("Name", [some "Box"]), ("Update", [some "2024-01-01"]),
         ("Primary Responsible Employee", [some "Ann"])]).exn = none := by
  have h := (claim7_creator env7 clear_task_cache ⟨some 5, []⟩
      [("Name", [some "Box"]), ("Update", [some "2024-01-01"]),
       ("Primary Responsible Employee", [some "Ann"])]
      (cacheOk_nil env7)).2.2.2 5 "Box" "2024-01-01" (some "Ann")
      (by decide) (by decide) (by decide) (by decide) (by decide)
      rfl (by decide) rfl (by decide) rfl (by right; left; rfl)
  simpa using h

/-! ## Creator bail-out and invocation lemmas -/

theorem create_invokeCreator_mem (env : Env) (cache : Cache) (asset : Asset)
    (ats : Attrs) :
    Act.invokeCreator ∈ (create_update_task env cache asset ats).trace := by
  by_cases hg1 : (strFalsy env.workspaceId || strFalsy env.projectKey) = true
  · simp [create_update_task, hg1]
  · by_cases hg2 : idFalsy asset.id = true
    · simp [create_update_task, hg1, hg2]
    · cases hr : (filter_update_issues env cache
          (env.linkedTickets (asset.id.getD 0))).1 with
      | cons x xs => simp [create_update_task, hg1, hg2, hr]
      | nil =>
          cases hn : attrFirst ats "Name" with
          | error e => simp [create_update_task, hg1, hg2, hr, hn]
          | ok no =>
              by_cases hno : strFalsy no = true
              · simp [create_update_task, hg1, hg2, hr, hn, hno]
              · cases hdu : attrFirst ats "Update" with
                | error e => simp [create_update_task, hg1, hg2, hr, hn, hno, hdu]
                | ok dno =>
                    by_cases hdno : strFalsy dno = true
                    · simp [create_update_task, hg1, hg2, hr, hn, hno, hdu, hdno]
                    · cases ha : attrFirst ats "Primary Responsible Employee" with
                      | error e =>
                          simp [create_update_task, hg1, hg2, hr, hn, hno, hdu,
                            hdno, ha]
                      | ok anm =>
                          simp [create_update_task, hg1, hg2, hr, hn, hno, hdu,
                            hdno, ha]

theorem create_task_bail (env : Env) (cache : Cache) (asset : Asset)
    (ats : Attrs) (aid : Nat) (hC : CacheOk env cache)
    (hid : asset.id = some aid)
    (hne : (env.linkedTickets aid).filter
      (fun k => is_task_for_update (env.getTask k)) ≠ []) :
    (create_update_task env cache asset ats).trace.filter Act.isCreate = [] ∧
    (create_update_task env cache asset ats).exn = none := by
  have hgd : asset.id.getD 0 = aid := by simp [hid]
  by_cases hg1 : (strFalsy env.workspaceId || strFalsy env.projectKey) = true
  · simp [create_update_task, hg1, Act.isCreate]
  · by_cases hg2 : idFalsy asset.id = true
    · simp [create_update_task, hg1, hg2, Act.isCreate]
    · have h1 := (filter_update_issues_spec env (env.linkedTickets aid) cache hC).1
      cases hr : (filter_update_issues env cache
          (env.linkedTickets (asset.id.getD 0))).1 with
      | nil =>
          rw [hgd] at hr
          rw [hr] at h1
          exact absurd h1.symm hne
      | cons x xs =>
          simp [create_update_task, hg1, hg2, hr, List.filter_append,
            filter_trace_create_nil hC, Act.isCreate]

theorem active_trace_create_nil {env : Env} {cache : Cache} {keys : List String}
    (hC : CacheOk env cache) :
    (active_issue_search env cache keys).2.2.filter Act.isCreate = [] :=
  List.filter_eq_nil_iff.2 fun a ha => by
    simp [(isGetTask_flags ((active_issue_search_spec env keys cache hC).2.2 a ha)).2.1]

/-! ## Claim theorem: C9 -/

/-- C9: the remediation creator re-fetches the linked tickets and returns
without creating anything whenever at least one linked remediation ticket
already exists, regardless of its status; consequently a due-soon asset
whose only linked remediation ticket has status Done invokes the creator
but never produces a new ticket. -/
theorem claim9_recheck (env : Env) (cache : Cache) (asset : Asset)
    (ats : Attrs) (aid : Nat) (hC : CacheOk env cache)
    (hid : asset.id = some aid)
    (hne : (env.linkedTickets aid).filter
      (fun k => is_task_for_update (env.getTask k)) ≠ []) :
    ((create_update_task env cache asset ats).trace.filter Act.isCreate = [] ∧
     (create_update_task env cache asset ats).exn = none) ∧
    (∀ k lbls, env.linkedTickets aid = [k] →
      env.getTask k = some ⟨"Done", lbls⟩ →
      Act.invokeCreator ∈ (handle_future_asset env cache asset ats).trace ∧
      (handle_future_asset env cache asset ats).trace.filter Act.isCreate = []) := by
  refine ⟨create_task_bail env cache asset ats aid hC hid hne, ?_⟩
  intro k lbls hlk hgk
  have hfs := filter_update_issues_spec env (env.linkedTickets aid) cache hC
  have hpred : is_task_for_update (env.getTask k) = true := by
    by_cases hp : is_task_for_update (env.getTask k) = true
    · exact hp
    · exfalso
      apply hne
      rw [hlk]
      simp [hp]
  have hupd : (filter_update_issues env cache (env.linkedTickets aid)).1 = [k] := by
    rw [hfs.1, hlk]
    simp [hpred]
  have hCf := hfs.2.1
  have has := active_issue_search_spec env [k]
    (filter_update_issues env cache (env.linkedTickets aid)).2.1 hCf
  have hmA : matchesActive env k = false := by simp [matchesActive, hgk]
  have hfound : (active_issue_search env
      (filter_update_issues env cache (env.linkedTickets aid)).2.1 [k]).1 = false := by
    rw [has.1]
    simp [hmA]
  have hCa := has.2.1
  have hbail := create_task_bail env
    (active_issue_search env
      (filter_update_issues env cache (env.linkedTickets aid)).2.1 [k]).2.1
    asset ats aid hCa hid hne
  have hmem := create_invokeCreator_mem env
    (active_issue_search env
      (filter_update_issues env cache (env.linkedTickets aid)).2.1 [k]).2.1
    asset ats
  constructor
  · simp [handle_future_asset, hid, hupd, hfound, hmem]
  · simp [handle_future_asset, hid, hupd, hfound, List.filter_append,
      filter_trace_create_nil hC, active_trace_create_nil hCf, hbail.1,
      Act.isCreate]

/-- Environment for the C9 witness: one linked remediation ticket already
in status Done. -/
def env9 : Env where
  getTask := fun k => if k = "T1" then some ⟨"Done", ["AssetUpdate"]⟩ else none
  linkedTickets := fun i => if i = 1 then ["T1"] else []
  transitions := fun _ => []
  dateParse := fun s => if s = "2024-01-10" then some 864000 else none
  workspaceId := some "ws"
  projectKey := some "PRJ"
  assigneeMapping := fun _ => none
  attributeMap := fun _ => none

/-- Witness for C9: the creator bails out on the Done ticket, and the
due-soon handler invokes the creator without creating anything. -/
theorem claim9_witness :
    ((create_update_task env9 clear_task_cache ⟨some 1, []⟩ []).trace.filter Act.isCreate = [] ∧
     (create_update_task env9 clear_task_cache ⟨some 1, []⟩ []).exn = none) ∧
    (Act.invokeCreator ∈ (handle_future_asset env9 clear_task_cache ⟨some 1, []⟩ []).trace ∧
     (handle_future_asset env9 clear_task_cache ⟨some 1, []⟩ []).trace.filter Act.isCreate = []) := by
  have h := claim9_recheck env9 clear_task_cache ⟨some 1, []⟩ [] 1
    (cacheOk_nil env9) rfl (by decide)
  exact ⟨h.1, h.2 "T1" ["AssetUpdate"] rfl (by decide)⟩

/-! ## Invocation-marker counts -/

theorem process_linked_markers (env : Env) (cache : Cache) (issue_key : String)
    (ats : Attrs) (now : Int) :
    (process_linked_update_issue env cache issue_key ats now).trace.countP isInvokeDecider = 1 ∧
    (process_linked_update_issue env cache issue_key ats now).trace.countP isInvokeCreator = 0 := by
  have hR := getTask_only_trace
    (@get_task_cached_trace_get env cache issue_key)
  have hT := transition_task_by_name_trace env issue_key "In Progress"
  cases hv : (get_task_cached env cache issue_key).1 with
  | none =>
      simp [process_linked_update_issue, hv, List.countP_cons, isInvokeDecider,
        isInvokeCreator, hR.2.2.1, hR.2.2.2]
  | some t =>
      cases hu : attrFirst ats "Update" with
      | error e =>
          simp [process_linked_update_issue, hv, hu, List.countP_cons,
            isInvokeDecider, isInvokeCreator, hR.2.2.1, hR.2.2.2]
      | ok o =>
          by_cases ho : strFalsy o = true
          · simp [process_linked_update_issue, hv, hu, ho, List.countP_cons,
              isInvokeDecider, isInvokeCreator, hR.2.2.1, hR.2.2.2]
          · cases hd : env.dateParse (o.getD "") with
            | none =>
                simp [process_linked_update_issue, hv, hu, ho, hd,
                  List.countP_cons, isInvokeDecider, isInvokeCreator,
                  hR.2.2.1, hR.2.2.2]
            | some d =>
                by_cases h1 : t.status = "Done"
                · by_cases h2 : d ≤ now
                  · simp [process_linked_update_issue, hv, hu, ho, hd, h1, h2,
                      List.countP_cons, List.countP_append, isInvokeDecider,
                      isInvokeCreator, hR.2.2.1, hR.2.2.2]
                  · simp [process_linked_update_issue, hv, hu, ho, hd, h1, h2,
                      List.countP_cons, isInvokeDecider, isInvokeCreator,
                      hR.2.2.1, hR.2.2.2]
                · by_cases h2 : d ≤ now
                  · by_cases h3 : t.status = "In Progress"
                    · simp [process_linked_update_issue, hv, hu, ho, hd, h1,
                        h2, h3, List.countP_cons, isInvokeDecider,
                        isInvokeCreator, hR.2.2.1, hR.2.2.2]
                    · simp [process_linked_update_issue, hv, hu, ho, hd, h1,
                        h2, h3, List.countP_cons, List.countP_append,
                        isInvokeDecider, isInvokeCreator, hR.2.2.1, hR.2.2.2,
                        hT.2.2.1, hT.2.2.2]
                  · simp [process_linked_update_issue, hv, hu, ho, hd, h1, h2,
                      List.countP_cons, isInvokeDecider, isInvokeCreator,
                      hR.2.2.1, hR.2.2.2]

theorem create_markers (env : Env) (cache : Cache) (asset : Asset)
    (ats : Attrs) (hC : CacheOk env cache) :
    (create_update_task env cache asset ats).trace.countP isInvokeCreator = 1 ∧
    (create_update_task env cache asset ats).trace.countP isInvokeDecider = 0 := by
  have hF := getTask_only_trace
    ((filter_update_issues_spec env
      (env.linkedTickets (asset.id.getD 0)) cache hC).2.2)
  by_cases hg1 : (strFalsy env.workspaceId || strFalsy env.projectKey) = true
  · simp [create_update_task, hg1, List.countP_cons, isInvokeCreator,
      isInvokeDecider]
  · by_cases hg2 : idFalsy asset.id = true
    · simp [create_update_task, hg1, hg2, List.countP_cons, isInvokeCreator,
        isInvokeDecider]
    · cases hr : (filter_update_issues env cache
          (env.linkedTickets (asset.id.getD 0))).1 with
      | cons x xs =>
          simp [create_update_task, hg1, hg2, hr, List.countP_cons,
            List.countP_append, isInvokeCreator, isInvokeDecider,
            hF.2.2.1, hF.2.2.2]
      | nil =>
          cases hn : attrFirst ats "Name" with
          | error e =>
              simp [create_update_task, hg1, hg2, hr, hn, List.countP_cons,
                List.countP_append, isInvokeCreator, isInvokeDecider,
                hF.2.2.1, hF.2.2.2]
          | ok no =>
              by_cases hno : strFalsy no = true
              · simp [create_update_task, hg1, hg2, hr, hn, hno,
                  List.countP_cons, List.countP_append, isInvokeCreator,
                  isInvokeDecider, hF.2.2.1, hF.2.2.2]
              · cases hdu : attrFirst ats "Update" with
                | error e =>
                    simp [create_update_task, hg1, hg2, hr, hn, hno, hdu,
                      List.countP_cons, List.countP_append, isInvokeCreator,
                      isInvokeDecider, hF.2.2.1, hF.2.2.2]
                | ok dno =>
                    by_cases hdno : strFalsy dno = true
                    · simp [create_update_task, hg1, hg2, hr, hn, hno, hdu,
                        hdno, List.countP_cons, List.countP_append,
                        isInvokeCreator, isInvokeDecider, hF.2.2.1, hF.2.2.2]
                    · cases ha : attrFirst ats "Primary Responsible Employee" with
                      | error e =>
                          simp [create_update_task, hg1, hg2, hr, hn, hno,
                            hdu, hdno, ha, List.countP_cons, List.countP_append,
                            isInvokeCreator, isInvokeDecider, hF.2.2.1, hF.2.2.2]
                      | ok anm =>
                          simp [create_update_task, hg1, hg2, hr, hn, hno,
                            hdu, hdno, ha, List.countP_cons, List.countP_append,
                            isInvokeCreator, isInvokeDecider, hF.2.2.1, hF.2.2.2]

theorem for_each_counts (env : Env) (ats : Attrs) (now : Int) :
    ∀ (keys : List String) (cache : Cache),
      (for_each_update_issue env ats now cache keys).trace.countP isInvokeCreator = 0 ∧
      ((for_each_update_issue env ats now cache keys).exn = none →
        (for_each_update_issue env ats now cache keys).trace.countP isInvokeDecider =
          keys.length) := by
  intro keys
  induction keys with
  | nil =>
      intro cache
      simp [for_each_update_issue]
  | cons k ks ih =>
      intro cache
      have hm := process_linked_markers env cache k ats now
      cases he : (process_linked_update_issue env cache k ats now).exn with
      | some e =>
          constructor
          · simp [for_each_update_issue, he, hm.2]
          · intro hx
            simp [for_each_update_issue, he] at hx
      | none =>
          obtain ⟨ih1, ih2⟩ := ih (process_linked_update_issue env cache k ats now).cache
          constructor
          · simp [for_each_update_issue, he, List.countP_append, hm.2, ih1]
          · intro hx
            simp only [for_each_update_issue, he] at hx ⊢
            simp only [List.countP_append, hm.1, ih2 hx, List.length_cons]
            omega

/-! ## Claim theorems: C1, C5, C2 (corrected claims) -/

/-- Environment refuting C1: one linked remediation ticket whose status is
exactly To Do (the source compares against TO DO). -/
def envC1 : Env where
  getTask := fun k => if k = "T1" then some ⟨"To Do", ["AssetUpdate"]⟩ else none
  linkedTickets := fun i => if i = 1 then ["T1"] else []
  transitions := fun _ => []
  dateParse := fun s => if s = "2024-01-10" then some 864000 else none
  workspaceId := some "ws"
  projectKey := some "PRJ"
  assigneeMapping := fun _ => none
  attributeMap := fun i => if i = 2 then some "Update" else none

def assetC1 : Asset := ⟨some 1, [⟨2, [.lit (some "2024-01-10")]⟩]⟩

/-- Counterexample to C1 as stated: for a due-soon asset whose only linked
remediation ticket has status exactly To Do, the reconciler does not treat
the ticket as active and stop; it invokes the remediation creator (the
active-status comparison uses the literal TO DO). -/
theorem claim1_counterexample :
    envC1.getTask "T1" = some ⟨"To Do", ["AssetUpdate"]⟩ ∧
    classify_urgency 864000 604800 = Urgency.DueSoon ∧
    Act.invokeCreator ∈
      (process_asset_update envC1 clear_task_cache assetC1 604800).trace := by
  decide

/-- C1 amended: for a due-soon asset the reconciler stops with no ticket
operation at the first linked remediation ticket whose status is in the
literal, case-sensitive set TO DO / In Progress; when no fetched status
matches (so in particular for a ticket whose status is exactly To Do) the
creator is invoked, yet no ticket is ever submitted while at least one
linked remediation ticket exists, because the creator re-checks the linked
tickets. -/
theorem claim1_future_asset (env : Env) (cache : Cache) (asset : Asset)
    (ats : Attrs) (aid : Nat) (hC : CacheOk env cache)
    (hid : asset.id = some aid) :
    (((env.linkedTickets aid).filter
        (fun k => is_task_for_update (env.getTask k))).any (matchesActive env) = true →
      (handle_future_asset env cache asset ats).trace.filter Act.isTicketCall = [] ∧
      Act.invokeCreator ∉ (handle_future_asset env cache asset ats).trace) ∧
    (((env.linkedTickets aid).filter
        (fun k => is_task_for_update (env.getTask k))).any (matchesActive env) = false →
      Act.invokeCreator ∈ (handle_future_asset env cache asset ats).trace) ∧
    ((env.linkedTickets aid).filter
        (fun k => is_task_for_update (env.getTask k)) ≠ [] →
      (handle_future_asset env cache asset ats).trace.filter Act.isCreate = []) := by
  have hfs := filter_update_issues_spec env (env.linkedTickets aid) cache hC
  have hF := getTask_only_trace hfs.2.2
  have has := active_issue_search_spec env
    (filter_update_issues env cache (env.linkedTickets aid)).1
    (filter_update_issues env cache (env.linkedTickets aid)).2.1 hfs.2.1
  have hA := getTask_only_trace has.2.2
  have hnc1 : Act.invokeCreator ∉
      (filter_update_issues env cache (env.linkedTickets aid)).2.2 := by
    intro hmem
    simpa [isInvokeCreator] using (isGetTask_flags (hfs.2.2 _ hmem)).2.2.2
  have hnc2 : Act.invokeCreator ∉
      (active_issue_search env
        (filter_update_issues env cache (env.linkedTickets aid)).2.1
        (filter_update_issues env cache (env.linkedTickets aid)).1).2.2 := by
    intro hmem
    simpa [isInvokeCreator] using (isGetTask_flags (has.2.2 _ hmem)).2.2.2
  refine ⟨?_, ?_, ?_⟩
  · intro hany
    have hfound : (active_issue_search env
        (filter_update_issues env cache (env.linkedTickets aid)).2.1
        (filter_update_issues env cache (env.linkedTickets aid)).1).1 = true := by
      rw [has.1, hfs.1]
      exact hany
    constructor
    · simp [handle_future_asset, hid, hfound, List.filter_append, hF.1, hA.1,
        Act.isTicketCall]
    · simp [handle_future_asset, hid, hfound, List.mem_append, hnc1, hnc2]
  · intro hany
    have hfound : (active_issue_search env
        (filter_update_issues env cache (env.linkedTickets aid)).2.1
        (filter_update_issues env cache (env.linkedTickets aid)).1).1 = false := by
      rw [has.1, hfs.1]
      exact hany
    have hmem := create_invokeCreator_mem env
      (active_issue_search env
        (filter_update_issues env cache (env.linkedTickets aid)).2.1
        (filter_update_issues env cache (env.linkedTickets aid)).1).2.1
      asset ats
    simp [handle_future_asset, hid, hfound, List.mem_append, hmem]
  · intro hne
    cases hb : (active_issue_search env
        (filter_update_issues env cache (env.linkedTickets aid)).2.1
        (filter_update_issues env cache (env.linkedTickets aid)).1).1 with
    | true =>
        simp [handle_future_asset, hid, hb, List.filter_append, hF.2.1,
          hA.2.1, Act.isCreate]
    | false =>
        have hbail := create_task_bail env
          (active_issue_search env
            (filter_update_issues env cache (env.linkedTickets aid)).2.1
            (filter_update_issues env cache (env.linkedTickets aid)).1).2.1
          asset ats aid has.2.1 hid hne
        simp [handle_future_asset, hid, hb, List.filter_append, hF.2.1,
          hA.2.1, hbail.1, Act.isCreate]

/-- Witness for the amended C1: on the To Do ticket the creator is invoked
but nothing is created. -/
theorem claim1_witness :
    Act.invokeCreator ∈ (handle_future_asset envC1 clear_task_cache assetC1
      [("Update", [some "2024-01-10"])]).trace ∧
    (handle_future_asset envC1 clear_task_cache assetC1
      [("Update", [some "2024-01-10"])]).trace.filter Act.isCreate = [] := by
  have h := claim1_future_asset envC1 clear_task_cache assetC1
    [("Update", [some "2024-01-10"])] 1 (cacheOk_nil envC1) rfl
  exact ⟨h.2.1 (by decide), h.2.2 (by decide)⟩

/-- Environment refuting C5: two linked remediation tickets, and the first
one triggers the uncaught ValueError of the missing In Progress
transition. -/
def env5 : Env where
  getTask := fun k =>
    if k = "T1" then some ⟨"To Do", ["AssetUpdate"]⟩
    else if k = "T2" then some ⟨"To Do", ["AssetUpdate"]⟩ else none
  linkedTickets := fun i => if i = 1 then ["T1", "T2"] else []
  transitions := fun _ => []
  dateParse := fun s => if s = "2024-01-01" then some 0 else none
  workspaceId := some "ws"
  projectKey := some "PRJ"
  assigneeMapping := fun _ => none
  attributeMap := fun i => if i = 2 then some "Update" else none

/-- Counterexample to C5 as stated: an overdue asset with two linked
remediation tickets on which the lifecycle decider runs only once, because
the first ticket raises the missing-transition ValueError and the loop
aborts. -/
theorem claim5_counterexample :
    ((env5.linkedTickets 1).filter
      (fun k => is_task_for_update (env5.getTask k))).length = 2 ∧
    (handle_overdue_asset env5 clear_task_cache ⟨some 1, []⟩
      [("Update", [some "2024-01-01"])] 100).trace.countP isInvokeDecider = 1 := by
  decide

/-- C5 amended: an overdue asset with no linked remediation tickets
invokes the creator exactly once and the decider never; with N linked
remediation tickets it never invokes the creator and, provided no decider
invocation raises an uncaught error, invokes the decider exactly N times
(an uncaught missing-transition error aborts the remaining tickets). -/
theorem claim5_overdue_asset (env : Env) (cache : Cache) (asset : Asset)
    (ats : Attrs) (now : Int) (aid : Nat) (hC : CacheOk env cache)
    (hid : asset.id = some aid) :
    ((env.linkedTickets aid).filter
        (fun k => is_task_for_update (env.getTask k)) = [] →
      (handle_overdue_asset env cache asset ats now).trace.countP isInvokeCreator = 1 ∧
      (handle_overdue_asset env cache asset ats now).trace.countP isInvokeDecider = 0) ∧
    (∀ u us, (env.linkedTickets aid).filter
        (fun k => is_task_for_update (env.getTask k)) = u :: us →
      (handle_overdue_asset env cache asset ats now).trace.countP isInvokeCreator = 0 ∧
      ((handle_overdue_asset env cache asset ats now).exn = none →
        (handle_overdue_asset env cache asset ats now).trace.countP isInvokeDecider =
          (u :: us).length)) := by
  have hfs := filter_update_issues_spec env (env.linkedTickets aid) cache hC
  have hF := getTask_only_trace hfs.2.2
  constructor
  · intro hnil
    have hr : (filter_update_issues env cache (env.linkedTickets aid)).1 = [] := by
      rw [hfs.1]
      exact hnil
    have hcm := create_markers env
      (filter_update_issues env cache (env.linkedTickets aid)).2.1 asset ats
      hfs.2.1
    constructor
    · simp [handle_overdue_asset, hid, hr, List.countP_cons,
        List.countP_append, isInvokeCreator, hF.2.2.2, hcm.1]
    · simp [handle_overdue_asset, hid, hr, List.countP_cons,
        List.countP_append, isInvokeDecider, hF.2.2.1, hcm.2]
  · intro u us hcons
    have hr : (filter_update_issues env cache (env.linkedTickets aid)).1 = u :: us := by
      rw [hfs.1]
      exact hcons
    have hfe := for_each_counts env ats now (u :: us)
      (filter_update_issues env cache (env.linkedTickets aid)).2.1
    constructor
    · simp [handle_overdue_asset, hid, hr, List.countP_cons,
        List.countP_append, isInvokeCreator, hF.2.2.2, hfe.1]
    · intro hx
      have hx2 : (for_each_update_issue env ats now
          (filter_update_issues env cache (env.linkedTickets aid)).2.1
          (u :: us)).exn = none := by
        simpa [handle_overdue_asset, hid, hr] using hx
      simp [handle_overdue_asset, hid, hr, List.countP_cons,
        List.countP_append, isInvokeDecider, hF.2.2.1, hfe.2 hx2]

/-- Environment for the C5 witness: one linked remediation ticket whose
In Progress transition is available. -/
def env5w : Env where
  getTask := fun k => if k = "T1" then some ⟨"To Do", ["AssetUpdate"]⟩ else none
  linkedTickets := fun i => if i = 1 then ["T1"] else []
  transitions := fun k => if k = "T1" then [⟨"In Progress", "31"⟩] else []
  dateParse := fun s => if s = "2024-01-01" then some 0 else none
  workspaceId := some "ws"
  projectKey := some "PRJ"
  assigneeMapping := fun _ => none
  attributeMap := fun i => if i = 2 then some "Update" else none

/-- Witness for the amended C5: one linked ticket, error-free run, decider
invoked exactly once and creator never. -/
theorem claim5_witness :
    (handle_overdue_asset env5w clear_task_cache ⟨some 1, []⟩
      [("Update", [some "2024-01-01"])] 100).trace.countP isInvokeCreator = 0 ∧
    (handle_overdue_asset env5w clear_task_cache ⟨some 1, []⟩
      [("Update", [some "2024-01-01"])] 100).trace.countP isInvokeDecider = 1 := by
  have h := (claim5_overdue_asset env5w clear_task_cache ⟨some 1, []⟩
    [("Update", [some "2024-01-01"])] 100 1 (cacheOk_nil env5w) rfl).2
    "T1" [] (by decide)
  exact ⟨h.1, by simpa using h.2 (by decide)⟩

/-- Environment refuting C2: the first asset has an overdue linked ticket
whose In Progress transition does not exist; the second asset would create
a ticket (and so fetch its links) if it were ever processed. -/
def envC2 : Env where
  getTask := fun k => if k = "T1" then some ⟨"To Do", ["AssetUpdate"]⟩ else none
  linkedTickets := fun i => if i = 1 then ["T1"] else []
  transitions := fun _ => []
  dateParse := fun s => if s = "2024-01-01" then some 0 else none
  workspaceId := some "ws"
  projectKey := some "PRJ"
  assigneeMapping := fun _ => none
  attributeMap := fun i => if i = 2 then some "Update" else none

def assetA1 : Asset := ⟨some 1, [⟨2, [.lit (some "2024-01-01")]⟩]⟩

def assetA2 : Asset := ⟨some 2, [⟨2, [.lit (some "2024-01-01")]⟩]⟩

/-- Counterexample to C2 as stated: the missing In Progress transition on
the first asset’s ticket raises an uncaught ValueError and the second
asset is never processed (its link fetch never happens). -/
theorem claim2_counterexample :
    (process_assets_with_update envC2 clear_task_cache [assetA1, assetA2] 100).exn =
      some "ValueError: Transition not found" ∧
    Act.fetchLinked 2 ∉
      (process_assets_with_update envC2 clear_task_cache [assetA1, assetA2] 100).trace := by
  decide

/-- C2 amended: HTTP-level comment and transition failures are returned as
values by the client wrappers and cannot abort the pass, but when the
named In Progress transition is absent, transition_task_by_name raises an
uncaught ValueError and the pass stops at the failing asset: its partial
state is returned and the remaining assets are not processed; an
exception-free asset lets the pass continue. -/
theorem claim2_batch (env : Env) (cache : Cache) (a : Asset)
    (rest : List Asset) (now : Int) (e : String) (k : String) :
    ((process_asset_update env cache a now).exn = some e →
      process_assets_with_update env cache (a :: rest) now =
        ⟨(process_asset_update env cache a now).cache,
         (process_asset_update env cache a now).trace, some e⟩) ∧
    ((env.transitions k).find? (fun t => t.name == "In Progress") = none →
      (transition_task_by_name env k "In Progress").2 =
        some "ValueError: Transition not found") ∧
    ((process_asset_update env cache a now).exn = none →
      process_assets_with_update env cache (a :: rest) now =
        ⟨(process_assets_with_update env
            (process_asset_update env cache a now).cache rest now).cache,
         (process_asset_update env cache a now).trace ++
           (process_assets_with_update env
             (process_asset_update env cache a now).cache rest now).trace,
         (process_assets_with_update env
           (process_asset_update env cache a now).cache rest now).exn⟩) := by
  refine ⟨?_, ?_, ?_⟩
  · intro h
    simp [process_assets_with_update, h]
  · intro hf
    simp [transition_task_by_name, find_transition_by_name, hf]
  · intro h
    simp [process_assets_with_update, h]

/-- Witness for the amended C2: the concrete two-asset pass stops after
the first asset with the ValueError. -/
theorem claim2_witness :
    process_assets_with_update envC2 clear_task_cache [assetA1, assetA2] 100 =
      ⟨(process_asset_update envC2 clear_task_cache assetA1 100).cache,
       (process_asset_update envC2 clear_task_cache assetA1 100).trace,
       some "ValueError: Transition not found"⟩ ∧
    (transition_task_by_name envC2 "T1" "In Progress").2 =
      some "ValueError: Transition not found" := by
  have h := claim2_batch envC2 clear_task_cache assetA1 [assetA2] 100
    "ValueError: Transition not found" "T1"
  exact ⟨h.1 (by decide), h.2.1 (by decide)⟩
